import Mathlib

/-!
Verification of `create_icons.py`: a script that renders square PNG icons
with a solid background and a centered two-glyph text label, then writes
them to `dist/icons/`.

The script is embedded shallowly.  The image library (Pillow) is a
collaborator; its operations are modelled through an explicit font
environment `FontEnv` that records which font files load successfully and
what bounding box the rasterizer measures for a string under a font.
Rendering is pure, so `create_icon` becomes a total Lean function from the
environment and the size to an `Icon` value recording the canvas and the
draw operations performed on it.  The driver's side effects (directory
creation, file writes, printed lines) are recorded as an event trace.
-/

namespace CreateIcons

/-- A text bounding box `(x0, y0, x1, y1)` as returned by
`draw.textbbox((0, 0), text, font=font)`: the rectangle enclosing the
rendered glyphs when the string is drawn with its anchor at the origin.
Offsets may be nonzero or negative, so coordinates are integers. -/
structure BBox where
  x0 : Int
  y0 : Int
  x1 : Int
  y1 : Int
deriving Repr, DecidableEq

/-- A font handle: either a TrueType font loaded from a path at a pixel
size (`ImageFont.truetype(path, size)`), or the built-in fallback returned
by `ImageFont.load_default()`, which takes no size argument. -/
inductive Font where
  | truetype (path : String) (size : Nat)
  | builtin
deriving Repr, DecidableEq

/-- The font environment: the collaborator state the script reads.
`truetypeOk path size` says whether `ImageFont.truetype(path, size)`
succeeds (any fault at all makes it `false`); `measureBBox font s` is the
bounding box the rasterizer reports for string `s` under `font` at anchor
`(0, 0)`; `clock` stands for ambient state (such as file timestamps) that
the rendering code never reads. -/
structure FontEnv where
  truetypeOk : String → Nat → Bool
  measureBBox : Font → String → BBox
  clock : Nat

/-- One `draw.text((x, y), text, fill=..., font=...)` operation. -/
structure TextOp where
  pos : Int × Int
  str : String
  fill : String
  font : Font
deriving Repr, DecidableEq

/-- The value returned by `create_icon`: the canvas created by
`Image.new(mode, (width, height), color=background)` together with the
draw operations applied to it. -/
structure Icon where
  mode : String
  width : Nat
  height : Nat
  background : String
  draws : List TextOp
deriving Repr, DecidableEq

/-- The preferred system font path from line 23 of the source. -/
def systemFontPath : String := "/System/Library/Fonts/Supplemental/Arial.ttf"

/-- The fixed label `text = "A한"` from line 27 of the source. -/
def labelText : String := "A한"

/-- `font_size = int(size * 0.4)` (line 20).  The Python float product is
modelled as exact rational arithmetic; `int` truncates toward zero, which
on this nonnegative value is the floor. -/
def font_size (size : Nat) : Nat := Nat.floor ((size : ℚ) * (2 / 5))

/-- The `try: font = ImageFont.truetype(...) except: font = ImageFont.load_default()`
block (lines 21-25): the preferred system font at `font_size size` when it
loads, the built-in default otherwise. -/
def selectFont (env : FontEnv) (size : Nat) : Font :=
  if env.truetypeOk systemFontPath (font_size size) then
    Font.truetype systemFontPath (font_size size)
  else
    Font.builtin

/-- The bounding box measured for the label under the selected font
(line 30). -/
def textBBoxOf (env : FontEnv) (size : Nat) : BBox :=
  env.measureBBox (selectFont env size) labelText

/-- `text_width = bbox[2] - bbox[0]` (line 31). -/
def textWidthOf (env : FontEnv) (size : Nat) : Int :=
  (textBBoxOf env size).x1 - (textBBoxOf env size).x0

/-- `text_height = bbox[3] - bbox[1]` (line 32). -/
def textHeightOf (env : FontEnv) (size : Nat) : Int :=
  (textBBoxOf env size).y1 - (textBBoxOf env size).y0

/-- Python `//` is floor division; both operands here are Python ints. -/
def pyFloorDiv (a b : Int) : Int := Int.fdiv a b

/-- The draw origin `(x, y)` from lines 34-35:
`x = (size - text_width) // 2`, `y = (size - text_height) // 2`. -/
def originOf (env : FontEnv) (size : Nat) : Int × Int :=
  (pyFloorDiv ((size : Int) - textWidthOf env size) 2,
   pyFloorDiv ((size : Int) - textHeightOf env size) 2)

/-- `create_icon(size)` (lines 14-40): a `size × size` RGB canvas with
background `#4A90E2`, on which the label is drawn in white at `(x, y)`
with the selected font. -/
def create_icon (env : FontEnv) (size : Nat) : Icon :=
  { mode := "RGB"
    width := size
    height := size
    background := "#4A90E2"
    draws := [{ pos := originOf env size
                str := labelText
                fill := "white"
                font := selectFont env size }] }

/-- Rasterizer semantics: drawing the label at `p` places its measured
anchor-`(0, 0)` bounding box translated by `p`.  This is the bounding box
the drawn glyphs occupy on the canvas. -/
def drawnBBox (env : FontEnv) (size : Nat) : BBox :=
  { x0 := (originOf env size).1 + (textBBoxOf env size).x0
    y0 := (originOf env size).2 + (textBBoxOf env size).y0
    x1 := (originOf env size).1 + (textBBoxOf env size).x1
    y1 := (originOf env size).2 + (textBBoxOf env size).y1 }

/-- Pixels between the canvas's left edge and the drawn glyph box. -/
def leftMarginOf (env : FontEnv) (size : Nat) : Int := (drawnBBox env size).x0

/-- Pixels between the drawn glyph box and the canvas's right edge. -/
def rightMarginOf (env : FontEnv) (size : Nat) : Int :=
  (size : Int) - (drawnBBox env size).x1

/-- Pixels between the canvas's top edge and the drawn glyph box. -/
def topMarginOf (env : FontEnv) (size : Nat) : Int := (drawnBBox env size).y0

/-- Pixels between the drawn glyph box and the canvas's bottom edge. -/
def bottomMarginOf (env : FontEnv) (size : Nat) : Int :=
  (size : Int) - (drawnBBox env size).y1

/-! ## The driver (lines 42-56) -/

/-- One observable side effect of the driver. -/
inductive Event where
  | makedirs (path : String) (existOk : Bool)
  | writeFile (path : String) (img : Icon)
  | printLine (line : String)
deriving Repr, DecidableEq

/-- `output_dir = "dist/icons"` (line 44). -/
def output_dir : String := "dist/icons"

/-- `sizes = [16, 48, 128]` (line 43). -/
def sizes : List Nat := [16, 48, 128]

/-- `filename = f"{output_dir}/icon{size}.png"` (line 51). -/
def iconFilename (size : Nat) : String :=
  output_dir ++ "/icon" ++ toString size ++ ".png"

/-- Splits a character list at newline characters; `acc` holds the
(reversed) characters of the line being assembled. -/
def splitLinesAux : List Char → List Char → List String
  | [], acc => [String.mk acc.reverse]
  | c :: cs, acc =>
    if c = '\n' then String.mk acc.reverse :: splitLinesAux cs []
    else splitLinesAux cs (c :: acc)

/-- The newline-separated pieces of a string. -/
def splitLines (s : String) : List String := splitLinesAux s.data []

/-- `print(s)` writes `s` and a final newline to standard output, so the
lines it emits are the newline-separated pieces of `s`. -/
def printEvents (s : String) : List Event :=
  (splitLines s).map Event.printLine

/-- The body of the `for size in sizes` loop (lines 49-53): render, save,
confirm. -/
def loopStep (env : FontEnv) (size : Nat) : List Event :=
  [Event.writeFile (iconFilename size) (create_icon env size)]
  ++ printEvents ("✓ " ++ iconFilename size ++ " 생성 완료")

/-- The driver (lines 42-56): `os.makedirs(output_dir, exist_ok=True)`,
the loop over `sizes`, then the two final `print` calls. -/
def runDriver (env : FontEnv) : List Event :=
  [Event.makedirs output_dir true]
  ++ (sizes.map (loopStep env)).flatten
  ++ printEvents "\n모든 아이콘이 생성되었습니다!"
  ++ printEvents ("위치: " ++ output_dir ++ "/")

/-- The outcome of one process run: its exit status and event trace. -/
structure ProgramResult where
  exitCode : Nat
  events : List Event
deriving Repr, DecidableEq

/-- The whole script, including the import guard (lines 7-12): when
Pillow cannot be imported, print the two guard lines and `exit(1)` before
touching the filesystem; otherwise run the driver and exit normally. -/
def runProgram (pillowAvailable : Bool) (env : FontEnv) : ProgramResult :=
  if pillowAvailable then
    { exitCode := 0, events := runDriver env }
  else
    { exitCode := 1
      events := printEvents "Pillow 라이브러리가 필요합니다."
                ++ printEvents "설치: pip install Pillow" }

/-- The lines printed to standard output, in order. -/
def stdoutLines (evs : List Event) : List String :=
  evs.filterMap fun e =>
    match e with
    | Event.printLine s => some s
    | _ => none

/-- The paths written, in order. -/
def writtenPaths (evs : List Event) : List String :=
  evs.filterMap fun e =>
    match e with
    | Event.writeFile p _ => some p
    | _ => none

/-- The directories created, in order, with their `exist_ok` flag. -/
def madeDirs (evs : List Event) : List (String × Bool) :=
  evs.filterMap fun e =>
    match e with
    | Event.makedirs p ok => some (p, ok)
    | _ => none

/-! ## Concrete font environments used to instantiate the theorems -/

/-- Environment whose measured label box has a nonzero left offset. -/
def envOffset : FontEnv :=
  { truetypeOk := fun _ _ => false
    measureBBox := fun _ _ => { x0 := 2, y0 := 0, x1 := 6, y1 := 4 }
    clock := 0 }

/-- Environment whose measured label box has zero left and top offsets. -/
def envZeroOffset : FontEnv :=
  { truetypeOk := fun _ _ => false
    measureBBox := fun _ _ => { x0 := 0, y0 := 0, x1 := 10, y1 := 12 }
    clock := 0 }

/-- An ordinary environment for exercising the driver. -/
def envStd : FontEnv :=
  { truetypeOk := fun _ _ => true
    measureBBox := fun _ _ => { x0 := 0, y0 := 0, x1 := 8, y1 := 8 }
    clock := 0 }

/-- Environment in which every TrueType font load fails. -/
def envNoFont : FontEnv :=
  { truetypeOk := fun _ _ => false
    measureBBox := fun _ _ => { x0 := 0, y0 := 0, x1 := 8, y1 := 8 }
    clock := 0 }

/-- Environment in which every TrueType font load fails, for the
fallback-font claim. -/
def envFallback : FontEnv :=
  { truetypeOk := fun _ _ => false
    measureBBox := fun _ _ => { x0 := 0, y0 := 0, x1 := 9, y1 := 7 }
    clock := 0 }

/-- An environment for exercising the canvas invariants. -/
def envCanvas : FontEnv :=
  { truetypeOk := fun _ _ => true
    measureBBox := fun _ _ => { x0 := 0, y0 := 0, x1 := 5, y1 := 5 }
    clock := 0 }

/-- Environment in which every TrueType font load succeeds. -/
def envAllOk : FontEnv :=
  { truetypeOk := fun _ _ => true
    measureBBox := fun _ _ => { x0 := 0, y0 := 0, x1 := 5, y1 := 5 }
    clock := 0 }

/-- One of two environments that agree on fonts but differ in ambient
state. -/
def envClockA : FontEnv :=
  { truetypeOk := fun _ _ => true
    measureBBox := fun _ _ => { x0 := 1, y0 := 2, x1 := 7, y1 := 9 }
    clock := 0 }

/-- The other environment: same fonts and measurements as `envClockA`,
different clock. -/
def envClockB : FontEnv :=
  { truetypeOk := fun _ _ => true
    measureBBox := fun _ _ => { x0 := 1, y0 := 2, x1 := 7, y1 := 9 }
    clock := 1 }

/-- Environment whose measured label box is larger than a small canvas. -/
def envBig : FontEnv :=
  { truetypeOk := fun _ _ => false
    measureBBox := fun _ _ => { x0 := 0, y0 := 0, x1 := 20, y1 := 20 }
    clock := 0 }

/-! ## Helper lemmas -/

/-- The exact-rational model of `int(size * 0.4)` is the natural-number
floor division `2 * size / 5`. -/
theorem font_size_eq (s : Nat) : font_size s = 2 * s / 5 := by
  unfold font_size
  rw [show ((s : ℚ) * (2 / 5)) = ((2 * s : ℕ) : ℚ) / ((5 : ℕ) : ℚ) by
    push_cast; ring]
  rw [Nat.floor_div_nat, Nat.floor_natCast]

/-- Floor division by two, on integers, in terms of Euclidean division. -/
theorem pyFloorDiv_two_eq (a : Int) : pyFloorDiv a 2 = a / 2 := by
  unfold pyFloorDiv
  rw [Int.fdiv_eq_ediv _ (by norm_num)]

/-! ## Claim theorems -/

/-- C1, counterexample: with a measured bounding box whose left offset is
`2` and a canvas of size `10`, the draw origin is `(3, 3)` exactly as the
formula states, yet the drawn glyph box is not horizontally centered: its
left margin is `5` while `size - bbox_width - left margin` is `1`. -/
theorem c1_counterexample :
    originOf envOffset 10 = (3, 3)
    ∧ leftMarginOf envOffset 10 = 5
    ∧ ¬ (leftMarginOf envOffset 10 =
          (10 : Int) - textWidthOf envOffset 10 - leftMarginOf envOffset 10) := by
  decide

/-- C1, amended: the draw origin is `x = (size - bbox_width) // 2`,
`y = (size - bbox_height) // 2` with floor division, and the drawn glyph
box sits at that origin shifted by the measured left/top offsets.  When
those offsets are zero the box is centered, its left and right (top and
bottom) margins equal up to the one pixel lost to floor division; a
nonzero offset shifts the drawn box off-center by exactly that offset. -/
theorem c1_centering (env : FontEnv) (size : Nat) (hpos : 0 < size) :
    originOf env size =
      (pyFloorDiv ((size : Int) - textWidthOf env size) 2,
       pyFloorDiv ((size : Int) - textHeightOf env size) 2)
    ∧ leftMarginOf env size =
        pyFloorDiv ((size : Int) - textWidthOf env size) 2 + (textBBoxOf env size).x0
    ∧ topMarginOf env size =
        pyFloorDiv ((size : Int) - textHeightOf env size) 2 + (textBBoxOf env size).y0
    ∧ ((textBBoxOf env size).x0 = 0 →
        leftMarginOf env size ≤ rightMarginOf env size
        ∧ rightMarginOf env size ≤ leftMarginOf env size + 1)
    ∧ ((textBBoxOf env size).y0 = 0 →
        topMarginOf env size ≤ bottomMarginOf env size
        ∧ bottomMarginOf env size ≤ topMarginOf env size + 1) := by
  refine ⟨rfl, rfl, rfl, ?_, ?_⟩
  · intro hx0
    show pyFloorDiv ((size : Int) - textWidthOf env size) 2 + (textBBoxOf env size).x0
        ≤ (size : Int) - (pyFloorDiv ((size : Int) - textWidthOf env size) 2
            + (textBBoxOf env size).x1)
      ∧ (size : Int) - (pyFloorDiv ((size : Int) - textWidthOf env size) 2
            + (textBBoxOf env size).x1)
        ≤ pyFloorDiv ((size : Int) - textWidthOf env size) 2 + (textBBoxOf env size).x0 + 1
    rw [pyFloorDiv_two_eq]
    unfold textWidthOf
    omega
  · intro hy0
    show pyFloorDiv ((size : Int) - textHeightOf env size) 2 + (textBBoxOf env size).y0
        ≤ (size : Int) - (pyFloorDiv ((size : Int) - textHeightOf env size) 2
            + (textBBoxOf env size).y1)
      ∧ (size : Int) - (pyFloorDiv ((size : Int) - textHeightOf env size) 2
            + (textBBoxOf env size).y1)
        ≤ pyFloorDiv ((size : Int) - textHeightOf env size) 2 + (textBBoxOf env size).y0 + 1
    rw [pyFloorDiv_two_eq]
    unfold textHeightOf
    omega

/-- C1, witness: at size `16` with a zero-offset measured box the margins
come out centered. -/
theorem c1_centering_witness :
    0 < 16
    ∧ (textBBoxOf envZeroOffset 16).x0 = 0
    ∧ leftMarginOf envZeroOffset 16 ≤ rightMarginOf envZeroOffset 16 :=
  ⟨by decide, by decide,
    ((c1_centering envZeroOffset 16 (by decide)).2.2.2.1 (by decide)).1⟩

/-- C2, counterexample: a successful run prints six lines to standard
output, not four: the two final `print` calls emit three lines (an empty
line, a completion message, and the location line). -/
theorem c2_counterexample :
    (stdoutLines (runProgram true envStd).events).length = 6
    ∧ (stdoutLines (runProgram true envStd).events).length ≠ 4 := by
  constructor
  · rfl
  · decide

/-- C2, amended: a successful run prints exactly six lines: one
confirmation per written file for sizes 16, 48, 128 in that order, each
naming the file, then an empty line, a completion message, and a final
line naming the output directory. -/
theorem c2_output_lines (env : FontEnv) :
    stdoutLines (runProgram true env).events =
      ["✓ dist/icons/icon16.png 생성 완료",
       "✓ dist/icons/icon48.png 생성 완료",
       "✓ dist/icons/icon128.png 생성 완료",
       "",
       "모든 아이콘이 생성되었습니다!",
       "위치: dist/icons/"] := by
  rfl

/-- C3: whenever loading the preferred system font fails (for any reason,
modelled by `truetypeOk` being `false`), `create_icon` still completes,
selects the built-in fallback font, returns a canvas of the requested
dimensions, and the run's standard output is identical to that under any
other font environment (no warning, no error). -/
theorem c3_fallback (env : FontEnv) (size : Nat) (hpos : 0 < size)
    (hfail : env.truetypeOk systemFontPath (font_size size) = false) :
    selectFont env size = Font.builtin
    ∧ (create_icon env size).width = size
    ∧ (create_icon env size).height = size
    ∧ (∀ env2 : FontEnv,
        stdoutLines (runProgram true env).events =
          stdoutLines (runProgram true env2).events) := by
  refine ⟨?_, rfl, rfl, fun env2 => rfl⟩
  simp [selectFont, hfail]

/-- C3, witness: at size `16` in an environment with no loadable TrueType
font, the fallback is selected and the canvas is 16 by 16. -/
theorem c3_fallback_witness :
    0 < 16
    ∧ envNoFont.truetypeOk systemFontPath (font_size 16) = false
    ∧ selectFont envNoFont 16 = Font.builtin
    ∧ (create_icon envNoFont 16).width = 16 :=
  ⟨by decide, rfl, (c3_fallback envNoFont 16 (by decide) rfl).1,
    (c3_fallback envNoFont 16 (by decide) rfl).2.1⟩

/-- C4: the program exits nonzero, printing exactly the two guard lines
and touching no directory and no file, if and only if Pillow cannot be
imported. -/
theorem c4_import_guard (pillowAvailable : Bool) (env : FontEnv) :
    pillowAvailable = false ↔
      ((runProgram pillowAvailable env).exitCode ≠ 0
       ∧ stdoutLines (runProgram pillowAvailable env).events =
           ["Pillow 라이브러리가 필요합니다.", "설치: pip install Pillow"]
       ∧ madeDirs (runProgram pillowAvailable env).events = []
       ∧ writtenPaths (runProgram pillowAvailable env).events = []) := by
  cases pillowAvailable
  · exact iff_of_true rfl ⟨Nat.one_ne_zero, rfl, rfl, rfl⟩
  · exact iff_of_false (by simp) (fun h => h.1 rfl)

/-- C5: when the preferred-font load fails, the selected font is the
built-in default, which carries no size parameter; in particular the
selected font (and hence the font recorded in the draw operation) is the
same for any two icon sizes on the fallback path. -/
theorem c5_fallback_font_fixed (env : FontEnv) (s1 s2 : Nat)
    (h1 : env.truetypeOk systemFontPath (font_size s1) = false)
    (h2 : env.truetypeOk systemFontPath (font_size s2) = false) :
    selectFont env s1 = Font.builtin
    ∧ selectFont env s1 = selectFont env s2
    ∧ (create_icon env s1).draws.map TextOp.font
        = (create_icon env s2).draws.map TextOp.font := by
  have e1 : selectFont env s1 = Font.builtin := by simp [selectFont, h1]
  have e2 : selectFont env s2 = Font.builtin := by simp [selectFont, h2]
  exact ⟨e1, e1.trans e2.symm, by simp [create_icon, e1, e2]⟩

/-- C5, witness: with no loadable TrueType font, sizes 16 and 128 get the
same built-in fallback font. -/
theorem c5_fallback_font_fixed_witness :
    envFallback.truetypeOk systemFontPath (font_size 16) = false
    ∧ envFallback.truetypeOk systemFontPath (font_size 128) = false
    ∧ selectFont envFallback 16 = Font.builtin
    ∧ selectFont envFallback 16 = selectFont envFallback 128 :=
  ⟨rfl, rfl, (c5_fallback_font_fixed envFallback 16 128 rfl rfl).1,
    (c5_fallback_font_fixed envFallback 16 128 rfl rfl).2.1⟩

/-- C6: for every positive size and every font environment, the rendered
icon is a square canvas of the requested size in RGB mode with background
`#4A90E2`. -/
theorem c6_square_rgb (env : FontEnv) (size : Nat) (hpos : 0 < size) :
    (create_icon env size).mode = "RGB"
    ∧ (create_icon env size).width = size
    ∧ (create_icon env size).height = size
    ∧ (create_icon env size).background = "#4A90E2" :=
  ⟨rfl, rfl, rfl, rfl⟩

/-- C6, witness: the size-16 icon is 16 by 16. -/
theorem c6_square_rgb_witness :
    0 < 16
    ∧ (create_icon envCanvas 16).width = 16
    ∧ (create_icon envCanvas 16).mode = "RGB" :=
  ⟨by decide, (c6_square_rgb envCanvas 16 (by decide)).2.1,
    (c6_square_rgb envCanvas 16 (by decide)).1⟩

/-- C7: a successful run creates the output directory first (with
`exist_ok`), and writes exactly the three files
`dist/icons/icon16.png`, `dist/icons/icon48.png`, `dist/icons/icon128.png`
in that order. -/
theorem c7_paths (env : FontEnv) :
    writtenPaths (runDriver env) =
      ["dist/icons/icon16.png", "dist/icons/icon48.png", "dist/icons/icon128.png"]
    ∧ (runDriver env).head? = some (Event.makedirs output_dir true)
    ∧ output_dir = "dist/icons" :=
  ⟨rfl, rfl, rfl⟩

/-- C8: rendering is deterministic: two environments that agree on which
fonts load and on every measured bounding box (but may differ in ambient
state such as timestamps) yield identical icons at every size and an
identical driver trace. -/
theorem c8_deterministic (e1 e2 : FontEnv)
    (hok : e1.truetypeOk = e2.truetypeOk)
    (hbb : e1.measureBBox = e2.measureBBox) :
    (∀ size : Nat, create_icon e1 size = create_icon e2 size)
    ∧ runDriver e1 = runDriver e2 := by
  obtain ⟨t1, m1, c1⟩ := e1
  obtain ⟨t2, m2, c2⟩ := e2
  have ht : t1 = t2 := hok
  have hm : m1 = m2 := hbb
  subst ht
  subst hm
  exact ⟨fun _ => rfl, rfl⟩

/-- C8, witness: two environments identical in fonts but with different
clocks render the same size-16 icon. -/
theorem c8_deterministic_witness :
    envClockA.truetypeOk = envClockB.truetypeOk
    ∧ envClockA.measureBBox = envClockB.measureBBox
    ∧ envClockA.clock ≠ envClockB.clock
    ∧ create_icon envClockA 16 = create_icon envClockB 16 :=
  ⟨rfl, rfl, by decide, (c8_deterministic envClockA envClockB rfl rfl).1 16⟩

/-- C9: the size handed to the preferred-font loader is
`font_size size = floor(size * 2/5)`, i.e. `2 * size / 5` in natural
floor division; in particular sizes 16, 48, 128 give 6, 19, 51. -/
theorem c9_font_size (env : FontEnv) (size : Nat) (hpos : 0 < size)
    (hok : env.truetypeOk systemFontPath (font_size size) = true) :
    font_size size = 2 * size / 5
    ∧ selectFont env size = Font.truetype systemFontPath (2 * size / 5)
    ∧ font_size 16 = 6 ∧ font_size 48 = 19 ∧ font_size 128 = 51 := by
  refine ⟨font_size_eq size, ?_, ?_, ?_, ?_⟩
  · simp only [selectFont, hok, if_true]
    rw [font_size_eq]
  · rw [font_size_eq]
  · rw [font_size_eq]
  · rw [font_size_eq]

/-- C9, witness: at size 16 the preferred font is requested at size 6. -/
theorem c9_font_size_witness :
    0 < 16
    ∧ envAllOk.truetypeOk systemFontPath (font_size 16) = true
    ∧ font_size 16 = 6
    ∧ selectFont envAllOk 16 = Font.truetype systemFontPath 6 :=
  ⟨by decide, rfl, (c9_font_size envAllOk 16 (by decide) rfl).2.2.1,
    (c9_font_size envAllOk 16 (by decide) rfl).2.1⟩

/-- C10: `create_icon` validates nothing: when the measured text width
(resp. height) exceeds the canvas size the computed x (resp. y) origin is
negative, the label is still drawn at exactly that origin with no
clamping, and the returned canvas is still `size` by `size`. -/
theorem c10_no_clamping (env : FontEnv) (size : Nat) (hpos : 0 < size) :
    ((size : Int) < textWidthOf env size → (originOf env size).1 < 0)
    ∧ ((size : Int) < textHeightOf env size → (originOf env size).2 < 0)
    ∧ (create_icon env size).draws =
        [{ pos := originOf env size, str := labelText, fill := "white",
           font := selectFont env size }]
    ∧ (create_icon env size).width = size
    ∧ (create_icon env size).height = size := by
  refine ⟨?_, ?_, rfl, rfl, rfl⟩
  · intro hw
    show pyFloorDiv ((size : Int) - textWidthOf env size) 2 < 0
    rw [pyFloorDiv_two_eq]
    omega
  · intro hh
    show pyFloorDiv ((size : Int) - textHeightOf env size) 2 < 0
    rw [pyFloorDiv_two_eq]
    omega

/-- C10, witness: a 20-wide measured box on a 10-pixel canvas puts the
draw origin at a negative x. -/
theorem c10_no_clamping_witness :
    0 < 10
    ∧ (10 : Int) < textWidthOf envBig 10
    ∧ (originOf envBig 10).1 < 0 :=
  ⟨by decide, by decide, (c10_no_clamping envBig 10 (by decide)).1 (by decide)⟩

end CreateIcons
